import Mathlib

/-!
Verification of `src/client.rs` of libshvrpc-rs: the login handshake
(`login`), the login-parameter rendering (`LoginParams::to_rpcvalue`) and
the configuration bootstrap (`ClientConfig::from_file_or_default`).

The RPC value / message data model, the credential hasher
(`crate::util::sha1_password_hash`) and the frame reader/writer live in
parts of the crate that are not part of the verified sources; the spec
treats them as external collaborators, and they are modelled here from the
spec's description (each such definition's doc comment starts with
`Modelled from the spec:`). The handshake engine, the rendering function
and the config bootstrap are transcribed directly from `src/client.rs`.

Machine integers are modelled as `Nat` with explicit reduction modulo
`2 ^ 32` / `2 ^ 64` where the Rust code computes in `u32` / `u64`.
-/

set_option maxRecDepth 100000

/-- Reduction modulo 2^32, the carrier of all 32-bit SHA-1 arithmetic. -/
def w32 (x : Nat) : Nat := x % 4294967296

/-- Left rotation of a 32-bit word by `n` places. -/
def rotl (n x : Nat) : Nat := w32 (x * 2 ^ n + x / 2 ^ (32 - n))

/-- Big-endian 4-byte decomposition of a 32-bit word. -/
def bytesBE4 (x : Nat) : List Nat :=
  [x / 16777216 % 256, x / 65536 % 256, x / 256 % 256, x % 256]

/-- Big-endian 8-byte decomposition of a 64-bit length field. -/
def bytesBE8 (x : Nat) : List Nat :=
  [x / 72057594037927936 % 256, x / 281474976710656 % 256,
   x / 1099511627776 % 256, x / 4294967296 % 256,
   x / 16777216 % 256, x / 65536 % 256, x / 256 % 256, x % 256]

/-- SHA-1 padding: append bit `1`, zero bytes up to 56 mod 64, then the
message length in bits as an 8-byte big-endian integer. -/
def sha1pad (msg : List Nat) : List Nat :=
  msg ++ [128] ++ List.replicate ((119 - msg.length % 64) % 64) 0
      ++ bytesBE8 (msg.length * 8)

/-- Big-endian 32-bit words of a byte list (groups of four bytes). -/
def toWords : List Nat → List Nat
  | a :: b :: c :: d :: rest => (((a * 256 + b) * 256 + c) * 256 + d) :: toWords rest
  | _ => []

/-- SHA-1 message-schedule extension of the 16 block words to 80 words. -/
def sha1extend (ws : List Nat) : List Nat :=
  (List.range 64).foldl
    (fun acc _ =>
      let n := acc.length
      acc ++ [rotl 1 (Nat.xor (Nat.xor (acc.getD (n - 3) 0) (acc.getD (n - 8) 0))
                              (Nat.xor (acc.getD (n - 14) 0) (acc.getD (n - 16) 0)))])
    ws

/-- SHA-1 round function for round `t`. -/
def sha1f (t b c d : Nat) : Nat :=
  if t < 20 then Nat.lor (Nat.land b c) (Nat.land (w32 (Nat.xor b 4294967295)) d)
  else if t < 40 then Nat.xor (Nat.xor b c) d
  else if t < 60 then Nat.lor (Nat.lor (Nat.land b c) (Nat.land b d)) (Nat.land c d)
  else Nat.xor (Nat.xor b c) d

/-- SHA-1 round constant for round `t`. -/
def sha1k (t : Nat) : Nat :=
  if t < 20 then 1518500249
  else if t < 40 then 1859775393
  else if t < 60 then 2400959708
  else 3395469782

/-- SHA-1 compression of one 64-byte block into the running state. -/
def sha1block (h : Nat × Nat × Nat × Nat × Nat) (block : List Nat) :
    Nat × Nat × Nat × Nat × Nat :=
  let ws := sha1extend (toWords block)
  let st := (List.range 80).foldl
    (fun st t =>
      let temp := w32 (rotl 5 st.1 + sha1f t st.2.1 st.2.2.1 st.2.2.2.1
                        + st.2.2.2.2 + sha1k t + ws.getD t 0)
      (temp, st.1, rotl 30 st.2.1, st.2.2.1, st.2.2.2.1))
    h
  (w32 (h.1 + st.1), w32 (h.2.1 + st.2.1), w32 (h.2.2.1 + st.2.2.1),
   w32 (h.2.2.2.1 + st.2.2.2.1), w32 (h.2.2.2.2 + st.2.2.2.2))

/-- Split a byte list into chunks of 64 bytes; the fuel argument bounds the
number of chunks and keeps the recursion structural (so that it reduces in
the kernel). -/
def chunks64Aux : Nat → List Nat → List (List Nat)
  | 0, _ => []
  | _ + 1, [] => []
  | fuel + 1, l => l.take 64 :: chunks64Aux fuel (l.drop 64)

/-- Split a byte list into chunks of 64 bytes. -/
def chunks64 (l : List Nat) : List (List Nat) := chunks64Aux l.length l

/-- SHA-1 digest (20 bytes) of a byte list. -/
def sha1 (msg : List Nat) : List Nat :=
  let st := (chunks64 (sha1pad msg)).foldl sha1block
    (1732584193, 4023233417, 2562383102, 271733878, 3285377520)
  bytesBE4 st.1 ++ bytesBE4 st.2.1 ++ bytesBE4 st.2.2.1
    ++ bytesBE4 st.2.2.2.1 ++ bytesBE4 st.2.2.2.2

/-- ASCII code of the lower-case hex digit of `n < 16`. -/
def hexDigit (n : Nat) : Nat := if n < 10 then 48 + n else 87 + n

/-- Two ASCII hex digits of a byte. -/
def hexByte (b : Nat) : List Nat := [hexDigit (b / 16), hexDigit (b % 16)]

/-- Lower-case hex encoding of a byte list, as ASCII bytes. -/
def hexBytes (l : List Nat) : List Nat := (l.map hexByte).flatten

/-- Modelled from the spec: `crate::util::sha1_password_hash` (not under the
verified sources). Per §4.1 the digest is SHA-1 applied to the concatenation
of password and nonce; the transmitted form is its hex encoding as bytes. -/
def sha1_password_hash (password nonce : List Nat) : List Nat :=
  hexBytes (sha1 (password ++ nonce))

/-- UTF-8 encoding of one character (`str::as_bytes` building block). -/
def utf8EncodeChar (c : Char) : List Nat :=
  let n := c.toNat
  if n < 128 then [n]
  else if n < 2048 then [192 + n / 64, 128 + n % 64]
  else if n < 65536 then [224 + n / 4096, 128 + n / 64 % 64, 128 + n % 64]
  else [240 + n / 262144, 128 + n / 4096 % 64, 128 + n / 64 % 64, 128 + n % 64]

/-- UTF-8 bytes of a string, i.e. Rust's `str::as_bytes`. -/
def strBytes (s : String) : List Nat := (s.data.map utf8EncodeChar).flatten

/-- String built from a list of ASCII byte values. -/
def asciiStringOf (l : List Nat) : String := String.mk (l.map Char.ofNat)

/-- Modelled: `std::str::from_utf8` restricted to the ASCII range. The only
byte sequences this program ever decodes are hex digests, which are ASCII,
where UTF-8 and ASCII agree; other inputs are conservatively rejected. -/
def utf8Decode (l : List Nat) : Option String :=
  if l.all (fun b => decide (b < 128)) then some (asciiStringOf l) else none

example : hexBytes (sha1 (strBytes "abc"))
    = strBytes "a9993e364706816aba3e25717850c26c9cd0d89d" := by decide

/-- Modelled from the spec: the generic RPC value model (`crate::RpcValue`,
not under the verified sources) restricted to the scalar kinds and the
key/value container this program uses — strings, unsigned/signed integers
and string-keyed mappings (`crate::Map`, an ordered map; every key this
program inserts is distinct, so an association list is a faithful
representation for lookup). -/
inductive RpcValue where
  | str (s : String)
  | uint (n : Nat)
  | int (i : Int)
  | map (m : List (String × RpcValue))

/-- Lookup in the association-list representation of `crate::Map`. -/
def mapGet (m : List (String × RpcValue)) (k : String) : Option RpcValue :=
  match m with
  | [] => none
  | (k0, v) :: rest => if k0 == k then some v else mapGet rest k

/-- Modelled from the spec: `RpcValue::as_map` — the mapping view of a
value; non-mapping values expose no fields. -/
def RpcValue.as_map : RpcValue → List (String × RpcValue)
  | .map m => m
  | _ => []

/-- Modelled from the spec: `RpcValue::as_str` — the string view of a
value; non-string values read as the empty string. -/
def RpcValue.as_str : RpcValue → String
  | .str s => s
  | _ => ""

/-- Two's-complement wrap of an integer into the `i32` range. -/
def wrap32 (i : Int) : Int := (i + 2147483648) % 4294967296 - 2147483648

/-- Modelled from the spec: `RpcValue::as_i32` — the value read as a signed
32-bit integer; non-numeric values read as `0`. -/
def RpcValue.as_i32 : RpcValue → Int
  | .int i => wrap32 i
  | .uint n => wrap32 (Int.ofNat n)
  | _ => 0

mutual

/-- Modelled from the spec: `RpcValue::to_cpon` — the compact textual
rendering of a value used for diagnostics. -/
def RpcValue.to_cpon : RpcValue → String
  | .str s => "\"" ++ s ++ "\""
  | .uint n => toString n ++ "u"
  | .int i => toString i
  | .map m => "\x7b" ++ cponEntries m ++ "\x7d"

/-- Comma-separated rendering of mapping entries for `RpcValue.to_cpon`. -/
def cponEntries : List (String × RpcValue) → String
  | [] => ""
  | [(k, v)] => "\"" ++ k ++ "\":" ++ RpcValue.to_cpon v
  | (k, v) :: rest => "\"" ++ k ++ "\":" ++ RpcValue.to_cpon v ++ "," ++ cponEntries rest

end

/-- Transcribed from `src/client.rs`: the `LoginType` enum. -/
inductive LoginType where
  | PLAIN
  | SHA1
deriving DecidableEq

/-- Transcribed from `src/client.rs`: `LoginType::to_str`. -/
def LoginType.to_str : LoginType → String
  | .PLAIN => "PLAIN"
  | .SHA1 => "SHA1"

/-- Model of `std::time::Duration` as used by this program: only the whole
seconds component (a `u64`) is ever read, via `Duration::as_secs`;
sub-second precision is never consulted by the code under verification. -/
structure Duration where
  secs : Nat
deriving DecidableEq

/-- Rust's `Duration::as_secs`: the whole-seconds component, a `u64`. -/
def Duration.as_secs (d : Duration) : Nat := d.secs % 18446744073709551616

/-- Transcribed from `src/client.rs`: the `LoginParams` struct. -/
structure LoginParams where
  user : String
  password : String
  login_type : LoginType
  device_id : String
  mount_point : String
  heartbeat_interval : Option Duration

/-- Transcribed from `src/client.rs`: `impl Default for LoginParams`. -/
def LoginParams.default : LoginParams :=
  { user := ""
    password := ""
    login_type := .SHA1
    device_id := ""
    mount_point := ""
    heartbeat_interval := some ⟨60⟩ }

/-- Transcribed from `src/client.rs`: `LoginParams::to_rpcvalue`. The
`u64` product `hbi.as_secs() * 3` is reduced modulo `2 ^ 64` as Rust's
release-mode arithmetic does. -/
def LoginParams.to_rpcvalue (p : LoginParams) : RpcValue :=
  let login : List (String × RpcValue) :=
    [("user", .str p.user),
     ("password", .str p.password),
     ("type", .str p.login_type.to_str)]
  let options : List (String × RpcValue) :=
    match p.heartbeat_interval with
    | some hbi => [("idleWatchDogTimeOut", .uint (hbi.as_secs * 3 % 18446744073709551616))]
    | none => []
  let device : List (String × RpcValue) :=
    if !p.device_id.isEmpty then [("deviceId", .str p.device_id)]
    else if !p.mount_point.isEmpty then [("mountPoint", .str p.mount_point)]
    else []
  let options := if !device.isEmpty then options ++ [("device", .map device)] else options
  .map [("login", .map login), ("options", .map options)]

/-- Modelled from the spec: an RPC error payload (`RpcError`), renderable
as diagnostic text via its generic-value projection. -/
structure RpcError where
  payload : RpcValue

/-- Modelled from the spec: `RpcError::to_rpcvalue`. -/
def RpcError.to_rpcvalue (e : RpcError) : RpcValue := e.payload

/-- Modelled from the spec: an RPC response message (`crate::RpcMessage`,
not under the verified sources) as the handshake engine reads it — a
success result and/or an error payload, either of which may be absent. -/
structure RpcMessage where
  resultValue : Option RpcValue
  errorValue : Option RpcError

/-- Modelled from the spec: `RpcMessage::default()` — the empty message
substituted when the stream yields nothing; it carries neither a result
nor an error payload. -/
def RpcMessage.default : RpcMessage := ⟨none, none⟩

/-- Modelled from the spec: `RpcMessage::is_success` — the engine-external
success predicate; a message is a success when it carries a result
(per §4.3 the substituted default response "is not a success"). -/
def RpcMessage.is_success (m : RpcMessage) : Bool := m.resultValue.isSome

/-- Modelled from the spec: `RpcMessage::error` — the error payload of the
message, when present. -/
def RpcMessage.error (m : RpcMessage) : Option RpcError := m.errorValue

/-- Modelled from the spec: `RpcMessage::result` — the result value of the
message, or a failure when the message carries none (the engine applies
the `?` operator to it). -/
def RpcMessage.result (m : RpcMessage) : Except String RpcValue :=
  match m.resultValue with
  | some v => .ok v
  | none => .error "No result"

/-- Modelled from the spec: a request built by `RpcMessage::new_request`
(destination path, method name, optional parameter). -/
structure RpcRequest where
  path : String
  method : String
  param : Option RpcValue

/-- Outcome of the handshake engine: a client id, a returned error (the
text of the `crate::Result` error), or a Rust panic. -/
inductive LoginResult where
  | ok (clientId : Int)
  | err (msg : String)
  | panicked (msg : String)
deriving DecidableEq

/-- Message text of a Rust `Option::unwrap` panic on a `None` value. -/
def unwrapNoneMsg : String := "called Option::unwrap() on a None value"

/-- Transcribed from `src/client.rs`: the handshake engine `login`.
The frame reader is modelled as the list of messages it will yield (the
list's end models a closed stream) and the writer as the returned list of
transmitted requests; transmission itself is assumed to succeed, and the
`.await?` on frame decoding is not modelled (no claim concerns a failing
transport read or write). -/
def login (reader : List RpcMessage) (login_params : LoginParams) :
    LoginResult × List RpcRequest :=
  let rq : RpcRequest := ⟨"", "hello", none⟩
  let sends := [rq]
  let resp := (reader.get? 0).getD RpcMessage.default
  if !resp.is_success then
    match resp.error with
    | none => (.panicked unwrapNoneMsg, sends)
    | some e => (.err e.to_rpcvalue.to_cpon, sends)
  else
    match resp.result with
    | .error e => (.err e, sends)
    | .ok res =>
      match mapGet res.as_map "nonce" with
      | none => (.err "Bad nonce", sends)
      | some nonceV =>
        let nonce := nonceV.as_str
        let hash := sha1_password_hash (strBytes login_params.password) (strBytes nonce)
        match utf8Decode hash with
        | none => (.err "invalid utf-8 sequence", sends)
        | some pwd =>
          let login_params := { login_params with password := pwd }
          let rq : RpcRequest := ⟨"", "login", some login_params.to_rpcvalue⟩
          let sends := sends ++ [rq]
          match reader.get? 1 with
          | none => (.err "Socked closed", sends)
          | some resp =>
            match resp.result with
            | .error e => (.err e, sends)
            | .ok res =>
              match mapGet res.as_map "clientId" with
              | none => (.ok 0, sends)
              | some client_id => (.ok client_id.as_i32, sends)

/-- Transcribed from `src/client.rs`: the `ClientConfig` struct. -/
structure ClientConfig where
  url : String
  device_id : Option String
  mount : Option String
  heartbeat_interval : String
  reconnect_interval : Option String
deriving DecidableEq

/-- Transcribed from `src/client.rs`: `default_heartbeat`. -/
def default_heartbeat : String := "1m"

/-- Transcribed from `src/client.rs`: `impl Default for ClientConfig`. -/
def ClientConfig.default : ClientConfig :=
  { url := "tcp://localhost:3755"
    device_id := none
    mount := none
    heartbeat_interval := default_heartbeat
    reconnect_interval := none }

/-- Abstract file-system collaborator of the config bootstrap (`std::fs`
and `std::path::Path`): existence check, read, parent path, recursive
directory creation and file write, each with its possible failure. -/
structure FsOps where
  fileExists : String → Bool
  readFile : String → Except String String
  parentDir : String → Option String
  createDirAll : String → Except String Unit
  writeFile : String → String → Except String Unit

/-- File-system side effects attempted by the config bootstrap, in order. -/
inductive FsEffect where
  | createDirAll (dir : String)
  | write (path content : String)
deriving DecidableEq

/-- Transcribed from `src/client.rs`: `ClientConfig::from_file`, with the
file system and the `serde_yaml` parser abstracted as parameters. -/
def ClientConfig.from_file (ops : FsOps) (parse : String → Except String ClientConfig)
    (file_name : String) : Except String ClientConfig :=
  match ops.readFile file_name with
  | .error e => .error e
  | .ok content => parse content

/-- Transcribed from `src/client.rs`: `ClientConfig::from_file_or_default`,
with the file system, the `serde_yaml` parser and the `serde_yaml`
serializer abstracted as parameters; alongside the result it returns the
file-system side effects attempted, in order. -/
def ClientConfig.from_file_or_default (ops : FsOps)
    (parse : String → Except String ClientConfig)
    (toYaml : ClientConfig → Except String String)
    (file_name : String) (create_if_not_exist : Bool) :
    Except String ClientConfig × List FsEffect :=
  if ops.fileExists file_name then
    match ClientConfig.from_file ops parse file_name with
    | .ok cfg => (.ok cfg, [])
    | .error err => (.error ("Cannot read config file: " ++ file_name ++ " - " ++ err), [])
  else
    let config := ClientConfig.default
    if create_if_not_exist then
      match ops.parentDir file_name with
      | some config_dir =>
        match ops.createDirAll config_dir with
        | .error e => (.error e, [.createDirAll config_dir])
        | .ok _ =>
          match toYaml config with
          | .error e => (.error e, [.createDirAll config_dir])
          | .ok s =>
            match ops.writeFile file_name s with
            | .error e => (.error e, [.createDirAll config_dir, .write file_name s])
            | .ok _ => (.ok config, [.createDirAll config_dir, .write file_name s])
      | none =>
        match toYaml config with
        | .error e => (.error e, [])
        | .ok s =>
          match ops.writeFile file_name s with
          | .error e => (.error e, [.write file_name s])
          | .ok _ => (.ok config, [.write file_name s])
    else (.ok config, [])

/-- ASCII codes of hex digits are below 128. -/
theorem hexDigit_lt_128 (n : Nat) (h : n < 16) : hexDigit n < 128 := by
  unfold hexDigit
  split <;> omega

/-- Hex encodings of byte lists consist of ASCII codes below 128. -/
theorem hexBytes_all_lt (l : List Nat) (hl : ∀ a ∈ l, a < 256) :
    ∀ b ∈ hexBytes l, b < 128 := by
  intro b hb
  simp only [hexBytes, List.mem_flatten, List.mem_map] at hb
  obtain ⟨bs, ⟨a, ha, rfl⟩, hbbs⟩ := hb
  have ha256 : a < 256 := hl a ha
  simp only [hexByte, List.mem_cons, List.not_mem_nil, or_false] at hbbs
  rcases hbbs with rfl | rfl
  · exact hexDigit_lt_128 _ (Nat.div_lt_of_lt_mul (by omega))
  · exact hexDigit_lt_128 _ (Nat.mod_lt _ (by omega))

/-- SHA-1 digests consist of byte values below 256. -/
theorem sha1_all_lt (msg : List Nat) : ∀ b ∈ sha1 msg, b < 256 := by
  intro b hb
  simp only [sha1, bytesBE4, List.mem_append, List.mem_cons,
    List.not_mem_nil, or_false] at hb
  omega

/-- The hex digest produced by the credential hasher always decodes as a
(ASCII) string, so the engine's `std::str::from_utf8` step never fails. -/
theorem utf8Decode_hash (pw nonce : List Nat) :
    utf8Decode (sha1_password_hash pw nonce)
      = some (asciiStringOf (sha1_password_hash pw nonce)) := by
  unfold utf8Decode
  rw [if_pos]
  rw [List.all_eq_true]
  intro b hb
  simp only [decide_eq_true_eq]
  exact hexBytes_all_lt _ (sha1_all_lt _) b hb

/-- Password as derived and transmitted by the engine: the hex SHA-1
digest of password and nonce, read back as a string. -/
def hashedPassword (pw nonce : String) : String :=
  asciiStringOf (sha1_password_hash (strBytes pw) (strBytes nonce))

/-- The `hello` request the engine transmits first. -/
def helloRequest : RpcRequest := ⟨"", "hello", none⟩

/-- The `password` field inside the `login` mapping of the second request
transmitted by the engine, when present. -/
def sentLoginPassword (sends : List RpcRequest) : Option String :=
  (sends.get? 1).bind fun rq =>
    rq.param.bind fun v =>
      (mapGet v.as_map "login").bind fun l =>
        (mapGet l.as_map "password").bind fun pv =>
          match pv with
          | .str s => some s
          | _ => none

/-- The `device` mapping inside the rendered request's `options`. -/
def renderedDevice (p : LoginParams) : Option RpcValue :=
  (mapGet p.to_rpcvalue.as_map "options").bind fun o => mapGet o.as_map "device"

/-- Whether the rendered `device` mapping contains key `k`. -/
def deviceHasKey (p : LoginParams) (k : String) : Bool :=
  match renderedDevice p with
  | some (.map d) => (mapGet d k).isSome
  | _ => false

/-- The `idleWatchDogTimeOut` entry of the rendered request's `options`. -/
def renderedIdle (p : LoginParams) : Option RpcValue :=
  (mapGet p.to_rpcvalue.as_map "options").bind fun o =>
    mapGet o.as_map "idleWatchDogTimeOut"

/-- After a `hello` response carrying a result with a `nonce`, the engine
transmits the `login` request with the hashed password and then decides the
outcome from the second message alone. -/
theorem login_after_nonce (p : LoginParams) (m : RpcMessage) (rest : List RpcMessage)
    (r nv : RpcValue) (h1 : m.resultValue = some r)
    (h2 : mapGet r.as_map "nonce" = some nv) :
    login (m :: rest) p =
      (let p2 : LoginParams := { p with password := hashedPassword p.password nv.as_str }
       let sends := [helloRequest, ⟨"", "login", some p2.to_rpcvalue⟩]
       match rest.get? 0 with
       | none => (.err "Socked closed", sends)
       | some resp2 =>
         match resp2.result with
         | .error e => (.err e, sends)
         | .ok res2 =>
           match mapGet res2.as_map "clientId" with
           | none => (.ok 0, sends)
           | some cid => (.ok cid.as_i32, sends)) := by
  unfold login
  simp only [List.get?, Option.getD, RpcMessage.is_success, h1, Option.isSome,
    Bool.not_true, Bool.false_eq_true, if_false, RpcMessage.result, h2,
    utf8Decode_hash, hashedPassword, helloRequest, List.cons_append,
    List.nil_append]

/-- C3: for every LoginParams, the rendered request transmits at most one
of deviceId / mountPoint: a non-empty device_id puts deviceId (and never
mountPoint) into the device mapping regardless of mount_point; an empty
device_id with a non-empty mount_point puts mountPoint there; with both
empty, options carries no device key at all. -/
theorem render_device_priority (p : LoginParams) :
    (p.device_id.isEmpty = false →
      deviceHasKey p "deviceId" = true ∧ deviceHasKey p "mountPoint" = false) ∧
    (p.device_id.isEmpty = true → p.mount_point.isEmpty = false →
      deviceHasKey p "mountPoint" = true) ∧
    (p.device_id.isEmpty = true → p.mount_point.isEmpty = true →
      renderedDevice p = none) := by
  obtain ⟨u, pw, lt, dev, mp, hb⟩ := p
  refine ⟨fun h1 => ?_, fun h1 h2 => ?_, fun h1 h2 => ?_⟩ <;>
    cases hb <;>
      simp_all [deviceHasKey, renderedDevice, LoginParams.to_rpcvalue, mapGet,
        RpcValue.as_map]

/-- C3 witness: concrete instances of the three cases of
`render_device_priority`. -/
theorem render_device_priority_witness :
    (deviceHasKey ⟨"u", "p", .SHA1, "dev", "mp", none⟩ "deviceId" = true ∧
     deviceHasKey ⟨"u", "p", .SHA1, "dev", "mp", none⟩ "mountPoint" = false) ∧
    deviceHasKey ⟨"u", "p", .SHA1, "", "mp", none⟩ "mountPoint" = true ∧
    renderedDevice ⟨"u", "p", .SHA1, "", "", none⟩ = none :=
  ⟨(render_device_priority _).1 (by decide),
   (render_device_priority _).2.1 (by decide) (by decide),
   (render_device_priority _).2.2 (by decide) (by decide)⟩

/-- C4 counterexample: at `heartbeat_interval` of `2 ^ 63` seconds the
rendered `idleWatchDogTimeOut` is the `u64`-wrapped product
`3 * 2 ^ 63 mod 2 ^ 64 = 2 ^ 63`, which is not `3` times the duration's
whole seconds, so the claim as stated fails at this input. -/
theorem idle_watchdog_overflow_counterexample :
    renderedIdle ⟨"", "", .SHA1, "", "", some ⟨9223372036854775808⟩⟩
      = some (.uint 9223372036854775808) ∧
    (9223372036854775808 : Nat) ≠ 3 * 9223372036854775808 :=
  ⟨rfl, by decide⟩

/-- C4 (amended): with `heartbeat_interval = Some(d)` the rendered
`idleWatchDogTimeOut` equals `3 * d.as_secs` reduced modulo `2 ^ 64`
(which is exactly `3 * d.as_secs` whenever that product fits in a `u64`);
with `None` the key is entirely absent. -/
theorem idle_watchdog_timeout (p : LoginParams) (d : Duration) :
    (p.heartbeat_interval = some d →
      renderedIdle p = some (.uint (d.as_secs * 3 % 18446744073709551616))) ∧
    (p.heartbeat_interval = none → renderedIdle p = none) := by
  obtain ⟨u, pw, lt, dev, mp, hb⟩ := p
  constructor <;> intro h <;> subst h <;>
    simp [renderedIdle, LoginParams.to_rpcvalue, RpcValue.as_map, mapGet] <;>
    split <;> (try split) <;> simp [mapGet]

/-- C4 witness: `idle_watchdog_timeout` at a 60-second heartbeat (rendered
timeout 180) and at an absent heartbeat (key absent). -/
theorem idle_watchdog_timeout_witness :
    renderedIdle ⟨"", "", .SHA1, "", "", some ⟨60⟩⟩ = some (.uint 180) ∧
    renderedIdle ⟨"", "", .SHA1, "", "", none⟩ = none :=
  ⟨(idle_watchdog_timeout ⟨"", "", .SHA1, "", "", some ⟨60⟩⟩ ⟨60⟩).1 rfl,
   (idle_watchdog_timeout ⟨"", "", .SHA1, "", "", none⟩ ⟨0⟩).2 rfl⟩

/-- After a `hello` response carrying a result with a `nonce`, exactly two
requests are transmitted: `hello` and then `login` carrying the rendered
parameters with the hashed password. -/
theorem login_after_nonce_sends (p : LoginParams) (m : RpcMessage)
    (rest : List RpcMessage) (r nv : RpcValue) (h1 : m.resultValue = some r)
    (h2 : mapGet r.as_map "nonce" = some nv) :
    (login (m :: rest) p).2
      = [helloRequest,
         ⟨"", "login",
          some ({ p with password := hashedPassword p.password nv.as_str} :
            LoginParams).to_rpcvalue⟩] := by
  rw [login_after_nonce p m rest r nv h1 h2]
  split
  · rfl
  · split
    · rfl
    · split <;> rfl

/-- C1 (amended): for every LoginParams, the password field transmitted in
the login request is the nonce-salted SHA-1 hash of the configured
password, regardless of login_type; login_type only selects the
transmitted `type` string and never suppresses the hashing. -/
theorem login_transmits_hashed_password (p : LoginParams) (m : RpcMessage)
    (rest : List RpcMessage) (r nv : RpcValue) (h1 : m.resultValue = some r)
    (h2 : mapGet r.as_map "nonce" = some nv) :
    sentLoginPassword (login (m :: rest) p).2
      = some (hashedPassword p.password nv.as_str) := by
  rw [login_after_nonce_sends p m rest r nv h1 h2]
  simp [sentLoginPassword, List.get?, LoginParams.to_rpcvalue, RpcValue.as_map,
    mapGet]

/-- C1 witness: `login_transmits_hashed_password` at a concrete PLAIN-typed
parameter set and nonce. -/
theorem login_transmits_hashed_password_witness :
    sentLoginPassword
        (login [⟨some (.map [("nonce", .str "n")]), none⟩]
          ⟨"", "pw", .PLAIN, "", "", some ⟨60⟩⟩).2
      = some (hashedPassword "pw" "n") :=
  login_transmits_hashed_password ⟨"", "pw", .PLAIN, "", "", some ⟨60⟩⟩
    ⟨some (.map [("nonce", .str "n")]), none⟩ [] (.map [("nonce", .str "n")])
    (.str "n") rfl rfl

/-- C1 counterexample: with `login_type = PLAIN` and configured password
"pw", the transmitted password field is the hex SHA-1 digest, not the raw
password, so the claim that PLAIN transmits the raw password fails. -/
theorem login_plain_password_not_raw :
    (⟨"", "pw", .PLAIN, "", "", some ⟨60⟩⟩ : LoginParams).login_type = .PLAIN ∧
    sentLoginPassword
        (login [⟨some (.map [("nonce", .str "n")]), none⟩]
          ⟨"", "pw", .PLAIN, "", "", some ⟨60⟩⟩).2
      = some (hashedPassword "pw" "n") ∧
    hashedPassword "pw" "n" ≠ "pw" :=
  ⟨rfl, by rfl, by decide⟩

/-- C10: at the failing input (stream closed right after the `hello`
request) the substituted default message is classified non-success yet
carries no error payload, so the engine's `resp.error().unwrap()` panics
instead of returning a typed failure. -/
theorem hello_closed_stream_panics :
    login [] LoginParams.default = (.panicked unwrapNoneMsg, [helloRequest]) ∧
    RpcMessage.default.is_success = false ∧
    RpcMessage.default.error = none :=
  ⟨rfl, rfl, rfl⟩

/-- C2 counterexample: with no message after `hello` the engine panics in
the non-success branch (it does not reach the missing-nonce failure), and
with no message after `login` the error text is "Socked closed", not
"socket closed"; both halves of the claim as stated fail. -/
theorem stream_close_asymmetry_counterexample :
    (login [] LoginParams.default).1 = .panicked unwrapNoneMsg ∧
    (login [] LoginParams.default).1 ≠ .err "Bad nonce" ∧
    (login [⟨some (.map [("nonce", .str "n")]), none⟩] LoginParams.default).1
      = .err "Socked closed" ∧
    "Socked closed" ≠ "socket closed" :=
  ⟨rfl, by decide, by rfl, by decide⟩

/-- C2 (amended): the two stream-close cases are handled asymmetrically —
after `hello`, the engine substitutes the default response, which is
classified non-success and makes the error-payload unwrap panic (the
failure does not arise from the missing nonce); after `login`, the
handshake fails hard with error text "Socked closed" (sic). -/
theorem stream_close_asymmetry (p : LoginParams) (m : RpcMessage)
    (r nv : RpcValue) (h1 : m.resultValue = some r)
    (h2 : mapGet r.as_map "nonce" = some nv) :
    (login [] p).1 = .panicked unwrapNoneMsg ∧
    (login [m] p).1 = .err "Socked closed" := by
  constructor
  · rfl
  · rw [login_after_nonce p m [] r nv h1 h2]
    rfl

/-- C2 witness: `stream_close_asymmetry` at a concrete parameter set and
hello response. -/
theorem stream_close_asymmetry_witness :
    (login [] LoginParams.default).1 = .panicked unwrapNoneMsg ∧
    (login [⟨some (.map [("nonce", .str "xyz")]), none⟩]
        LoginParams.default).1 = .err "Socked closed" :=
  stream_close_asymmetry LoginParams.default
    ⟨some (.map [("nonce", .str "xyz")]), none⟩ (.map [("nonce", .str "xyz")])
    (.str "xyz") rfl rfl

/-- C6: when the `hello` response is a success whose result mapping lacks
`nonce`, the handshake fails with error text "Bad nonce" and only the
`hello` request was transmitted — no `login` request is sent. -/
theorem hello_missing_nonce (p : LoginParams) (m : RpcMessage)
    (rest : List RpcMessage) (r : RpcValue) (h1 : m.resultValue = some r)
    (h2 : mapGet r.as_map "nonce" = none) :
    login (m :: rest) p = (.err "Bad nonce", [helloRequest]) := by
  unfold login
  simp only [List.get?, Option.getD, RpcMessage.is_success, h1, Option.isSome,
    Bool.not_true, Bool.false_eq_true, if_false, RpcMessage.result, h2,
    helloRequest]

/-- C6 witness: `hello_missing_nonce` at a success response whose result
mapping is empty. -/
theorem hello_missing_nonce_witness :
    login [⟨some (.map []), none⟩] LoginParams.default
      = (.err "Bad nonce", [helloRequest]) :=
  hello_missing_nonce LoginParams.default ⟨some (.map []), none⟩ [] (.map [])
    rfl rfl

/-- C7: when the `hello` response signals non-success, the handshake fails
carrying the server-provided error payload rendered as its compact textual
form, and only the `hello` request was transmitted — the `login` request is
never sent. -/
theorem hello_rejected_no_login_sent (p : LoginParams) (m : RpcMessage)
    (rest : List RpcMessage) (e : RpcError) (h1 : m.is_success = false)
    (h2 : m.error = some e) :
    login (m :: rest) p = (.err e.to_rpcvalue.to_cpon, [helloRequest]) := by
  unfold login
  simp only [List.get?, Option.getD, h1, Bool.not_false, if_true, h2,
    helloRequest]

/-- C7 witness: `hello_rejected_no_login_sent` at an error response whose
payload is the string "Invalid login". -/
theorem hello_rejected_no_login_sent_witness :
    login [⟨none, some ⟨.str "Invalid login"⟩⟩] LoginParams.default
      = (.err "\"Invalid login\"", [helloRequest]) :=
  hello_rejected_no_login_sent LoginParams.default
    ⟨none, some ⟨.str "Invalid login"⟩⟩ [] ⟨.str "Invalid login"⟩ rfl rfl

/-- C5: when the login response is a success, the handshake returns the
result mapping's `clientId` value read as a signed 32-bit integer when the
key is present, and succeeds with client id `0` (not an error) when the
key is absent. -/
theorem login_client_id (p : LoginParams) (m1 m2 : RpcMessage)
    (rest : List RpcMessage) (r1 nv r2 : RpcValue)
    (h1 : m1.resultValue = some r1) (h2 : mapGet r1.as_map "nonce" = some nv)
    (h3 : m2.resultValue = some r2) :
    (∀ v, mapGet r2.as_map "clientId" = some v →
      (login (m1 :: m2 :: rest) p).1 = .ok v.as_i32) ∧
    (mapGet r2.as_map "clientId" = none →
      (login (m1 :: m2 :: rest) p).1 = .ok 0) := by
  rw [login_after_nonce p m1 (m2 :: rest) r1 nv h1 h2]
  constructor
  · intro v hv
    simp [List.get?, RpcMessage.result, h3, hv]
  · intro hv
    simp [List.get?, RpcMessage.result, h3, hv]

/-- C5 witness: `login_client_id` at the spec's end-to-end scenarios 1 and
2 — a login result with `clientId = 42` yields client id 42, and a login
result lacking `clientId` yields client id 0. -/
theorem login_client_id_witness :
    (login [⟨some (.map [("nonce", .str "abc123")]), none⟩,
            ⟨some (.map [("clientId", .int 42)]), none⟩]
        LoginParams.default).1 = .ok 42 ∧
    (login [⟨some (.map [("nonce", .str "xyz")]), none⟩,
            ⟨some (.map []), none⟩]
        LoginParams.default).1 = .ok 0 :=
  ⟨(login_client_id LoginParams.default
      ⟨some (.map [("nonce", .str "abc123")]), none⟩
      ⟨some (.map [("clientId", .int 42)]), none⟩ []
      (.map [("nonce", .str "abc123")]) (.str "abc123")
      (.map [("clientId", .int 42)]) rfl rfl rfl).1 (.int 42) rfl,
   (login_client_id LoginParams.default
      ⟨some (.map [("nonce", .str "xyz")]), none⟩ ⟨some (.map []), none⟩ []
      (.map [("nonce", .str "xyz")]) (.str "xyz") (.map []) rfl rfl rfl).2
      rfl⟩

/-- C8: whenever a config file exists at the path but loading it (reading
or parsing) fails, `from_file_or_default` returns the error annotated with
the file path and the original cause; it never falls back to the default
configuration when a file exists. -/
theorem config_error_no_fallback (ops : FsOps)
    (parse : String → Except String ClientConfig)
    (toYaml : ClientConfig → Except String String)
    (file_name e : String) (create_if_not_exist : Bool)
    (hfe : ops.fileExists file_name = true)
    (herr : ClientConfig.from_file ops parse file_name = .error e) :
    (ClientConfig.from_file_or_default ops parse toYaml file_name
        create_if_not_exist).1
      = .error ("Cannot read config file: " ++ file_name ++ " - " ++ e) := by
  unfold ClientConfig.from_file_or_default
  simp [hfe, herr]

/-- C8 witness: `config_error_no_fallback` on a file system whose read of
the existing file "/etc/shv.conf" fails with cause "boom". -/
theorem config_error_no_fallback_witness :
    (ClientConfig.from_file_or_default
        ⟨fun _ => true, fun _ => .error "boom", fun _ => none,
         fun _ => .ok (), fun _ _ => .ok ()⟩
        (fun _ => .error "parse failure") (fun _ => .ok "") "/etc/shv.conf"
        false).1
      = .error "Cannot read config file: /etc/shv.conf - boom" :=
  config_error_no_fallback
    ⟨fun _ => true, fun _ => .error "boom", fun _ => none,
     fun _ => .ok (), fun _ _ => .ok ()⟩
    (fun _ => .error "parse failure") (fun _ => .ok "") "/etc/shv.conf" "boom"
    false rfl rfl

/-- C9: with no config file at the path, `from_file_or_default` yields the
default ClientConfig (url "tcp://localhost:3755", optional fields absent,
heartbeat_interval "1m"); with `create_if_not_exist` set it first creates
the parent directory and then writes the serialized default to the path,
and a directory-creation or write failure aborts with that error instead
of returning the default. -/
theorem config_default_and_create (ops : FsOps)
    (parse : String → Except String ClientConfig)
    (toYaml : ClientConfig → Except String String) (file_name : String)
    (hfe : ops.fileExists file_name = false) :
    (ClientConfig.default.url = "tcp://localhost:3755" ∧
     ClientConfig.default.device_id = none ∧
     ClientConfig.default.mount = none ∧
     ClientConfig.default.reconnect_interval = none ∧
     ClientConfig.default.heartbeat_interval = "1m") ∧
    (ClientConfig.from_file_or_default ops parse toYaml file_name false
      = (.ok ClientConfig.default, [])) ∧
    (∀ dir y, ops.parentDir file_name = some dir →
      ops.createDirAll dir = .ok () → toYaml ClientConfig.default = .ok y →
      ops.writeFile file_name y = .ok () →
      ClientConfig.from_file_or_default ops parse toYaml file_name true
        = (.ok ClientConfig.default,
           [.createDirAll dir, .write file_name y])) ∧
    (∀ dir e, ops.parentDir file_name = some dir →
      ops.createDirAll dir = .error e →
      (ClientConfig.from_file_or_default ops parse toYaml file_name true).1
        = .error e) ∧
    (∀ dir y e, ops.parentDir file_name = some dir →
      ops.createDirAll dir = .ok () → toYaml ClientConfig.default = .ok y →
      ops.writeFile file_name y = .error e →
      (ClientConfig.from_file_or_default ops parse toYaml file_name true).1
        = .error e) := by
  refine ⟨⟨rfl, rfl, rfl, rfl, rfl⟩, ?_, ?_, ?_, ?_⟩ <;> intros <;>
    simp_all [ClientConfig.from_file_or_default]

/-- C9 witness: `config_default_and_create` on a file system with no file
at "/etc/shv.conf" where directory creation and the write of the
serialized default both succeed. -/
theorem config_default_and_create_witness :
    ClientConfig.from_file_or_default
        ⟨fun _ => false, fun _ => .error "not found", fun _ => some "/etc",
         fun _ => .ok (), fun _ _ => .ok ()⟩
        (fun _ => .error "unused") (fun _ => .ok "url: tcp://localhost:3755")
        "/etc/shv.conf" true
      = (.ok ClientConfig.default,
         [.createDirAll "/etc",
          .write "/etc/shv.conf" "url: tcp://localhost:3755"]) ∧
    ClientConfig.default.heartbeat_interval = "1m" :=
  ⟨(config_default_and_create
      ⟨fun _ => false, fun _ => .error "not found", fun _ => some "/etc",
       fun _ => .ok (), fun _ _ => .ok ()⟩
      (fun _ => .error "unused") (fun _ => .ok "url: tcp://localhost:3755")
      "/etc/shv.conf" rfl).2.2.1 "/etc" "url: tcp://localhost:3755" rfl rfl
      rfl rfl,
   (config_default_and_create
      ⟨fun _ => false, fun _ => .error "not found", fun _ => some "/etc",
       fun _ => .ok (), fun _ _ => .ok ()⟩
      (fun _ => .error "unused") (fun _ => .ok "url: tcp://localhost:3755")
      "/etc/shv.conf" rfl).1.2.2.2.2⟩
